import Mathlib

/-!
Shallow embedding of the download utility in `src/app.py` (a Streamlit
front-end over yt-dlp), together with proofs of the specification claims
about it.  Pure Python functions become Lean functions; dictionary keys
that may be absent become `Option` fields; Python exceptions become
`Except` values; Python floats are modelled by `ℚ` (every concrete value
the claims exercise is a dyadic rational on which Python float arithmetic
is exact).
-/

/-- Python `f"{n:02d}"` for a nonnegative integer: decimal digits padded
with leading zeros to a minimum width of two. -/
def pad2 (n : Nat) : String :=
  if n < 10 then "0" ++ toString n else toString n

/-- Embeds `format_duration` (app.py lines 295-315).  Durations are
nonnegative, so the `int` argument is modelled by `ℕ`; `//` and `%` on
nonnegative Python ints agree with `Nat` division and modulus. -/
def format_duration (seconds : Nat) : String :=
  if seconds = 0 then "Unknown"
  else
    let hours := seconds / 3600
    let minutes := (seconds % 3600) / 60
    let secs := seconds % 60
    if hours > 0 then
      pad2 hours ++ ":" ++ pad2 minutes ++ ":" ++ pad2 secs
    else
      pad2 minutes ++ ":" ++ pad2 secs

/-- Python `f"{x:.1f}"` on a nonnegative rational: round `x * 10` half to
even, then print `units "." tenth`.  Python formats the binary double with
round-half-even; on values whose tenths digit is exact in binary (all
values the claims exercise) this agrees with rounding the true rational. -/
def fmt1nn (q : ℚ) : String :=
  let t : ℚ := q * 10
  let fl : ℤ := ⌊t⌋
  let r : ℤ :=
    if t - fl > 1/2 then fl + 1
    else if t - fl < 1/2 then fl
    else if fl % 2 = 0 then fl else fl + 1
  let n : ℕ := r.toNat
  toString (n / 10) ++ "." ++ toString (n % 10)

/-- Python `f"{x:.1f}"` including the sign of a negative value. -/
def fmt1 (q : ℚ) : String :=
  if q < 0 then "-" ++ fmt1nn (-q) else fmt1nn q

/-- The unit loop of `format_file_size`: divide by 1024 while moving
through the unit list, falling through to `"TB"`. -/
def file_size_loop (bytes_size : ℚ) : List String → String
  | [] => fmt1 bytes_size ++ " TB"
  | unit :: rest =>
      if bytes_size < 1024 then fmt1 bytes_size ++ " " ++ unit
      else file_size_loop (bytes_size / 1024) rest

/-- Embeds `format_file_size` (app.py lines 317-334).  The Python value
starts as an `int` and becomes a float after the first `/= 1024.0`; both
are modelled by `ℚ`. -/
def format_file_size (bytes_size : Nat) : String :=
  if bytes_size = 0 then "Unknown"
  else file_size_loop (bytes_size : ℚ) ["B", "KB", "MB", "GB"]

/-- One entry of the raw `formats` list handed back by the extraction
engine, restricted to the keys `get_available_formats` reads.  A field is
`none` when the key is missing from the dict (Python `d.get(k)` then
yields `None`, and `d.get(k, dflt)` yields `dflt`).  `height` is an `int`
in the engine's output; `abr` and `fps` may be fractional. -/
structure RawFormat where
  format_id : Option String
  ext : Option String
  vcodec : Option String
  acodec : Option String
  height : Option Nat
  abr : Option ℚ
  fps : Option ℚ
  filesize : Option Nat
  format_note : Option String
deriving DecidableEq, Repr

/-- One record of the organized output of `get_available_formats`.  The
Python dict for a video record carries an `fps` key and no `abr` key, and
vice versa for an audio record; the absent key is modelled as `none`.
`quality` is `fmt.get('height', 'Unknown')` resp. `fmt.get('abr',
'Unknown')`: `none` stands for the literal string `'Unknown'`. -/
structure OrganizedFormat where
  format_id : Option String
  ext : String
  quality : Option ℚ
  filesize : Nat
  type : String
  note : String
  fps : Option ℚ
  abr : Option ℚ
deriving DecidableEq, Repr

/-- The video record built at app.py lines 358-366. -/
def mkVideo (fmt : RawFormat) : OrganizedFormat where
  format_id := fmt.format_id
  ext := fmt.ext.getD "mp4"
  quality := fmt.height.map (fun h => (h : ℚ))
  filesize := fmt.filesize.getD 0
  type := "video"
  note := fmt.format_note.getD ""
  fps := some (fmt.fps.getD 0)
  abr := none

/-- The audio record built at app.py lines 371-379. -/
def mkAudio (fmt : RawFormat) : OrganizedFormat where
  format_id := fmt.format_id
  ext := fmt.ext.getD "mp3"
  quality := fmt.abr
  filesize := fmt.filesize.getD 0
  type := "audio"
  note := fmt.format_note.getD ""
  fps := none
  abr := some (fmt.abr.getD 0)

/-- Python `fmt.get('ext') in exts`: `None` is a member of no list of
strings, so a missing `ext` key never passes. -/
def extMem (fmt : RawFormat) (exts : List String) : Bool :=
  match fmt.ext with
  | some e => exts.contains e
  | none => false

/-- Embeds `get_available_formats` (app.py lines 336-381): two list
comprehensions split the raw list by codec shape, then each sublist is
walked in order, appending a record for every entry whose extension is in
the corresponding allow-list — all video records first, then all audio
records. -/
def get_available_formats (formats : List RawFormat) : List OrganizedFormat :=
  let video_formats := formats.filter fun f =>
    (f.vcodec != some "none") && (f.acodec != some "none")
  let audio_formats := formats.filter fun f =>
    (f.vcodec == some "none") && (f.acodec != some "none")
  let organized_video := video_formats.filterMap fun fmt =>
    if extMem fmt ["mp4", "webm", "mkv"] then some (mkVideo fmt) else none
  let organized_audio := audio_formats.filterMap fun fmt =>
    if extMem fmt ["mp3", "m4a", "webm"] then some (mkAudio fmt) else none
  organized_video ++ organized_audio

/-- The full eligibility test for a video record: the codec test of the
comprehension at app.py line 350 conjoined with the extension allow-list
test at line 357. -/
def videoPred (f : RawFormat) : Bool :=
  ((f.vcodec != some "none") && (f.acodec != some "none"))
    && extMem f ["mp4", "webm", "mkv"]

/-- The full eligibility test for an audio record: the codec test of the
comprehension at app.py line 353 conjoined with the extension allow-list
test at line 370. -/
def audioPred (f : RawFormat) : Bool :=
  ((f.vcodec == some "none") && (f.acodec != some "none"))
    && extMem f ["mp3", "m4a", "webm"]

/-- One progress event dict `d` passed by the download engine to the hook,
restricted to the keys the hook reads.  `none` models an absent key. -/
structure ProgressEvent where
  status : String
  total_bytes : Option Nat
  downloaded_bytes : Option Nat
  percent_str : Option String
deriving DecidableEq, Repr

/-- The Python exceptions the hook body can raise. -/
inductive PyError where
  | keyError (key : String)
  | zeroDivisionError
deriving DecidableEq, Repr

/-- What one hook invocation writes to the two UI handles: the value
passed to `progress_bar.progress` (a fraction in `[0,1]` on the happy
path) and the string passed to `status_text.text`; `none` means the
handle is left untouched. -/
structure HookEffect where
  progress : Option ℚ := none
  text : Option String := none
deriving DecidableEq, Repr

/-- Python `s.strip('%')`: remove every leading and trailing `'%'`. -/
def stripPercent (s : String) : String :=
  let l := s.toList.dropWhile (fun c => c = '%')
  String.mk ((l.reverse.dropWhile (fun c => c = '%')).reverse)

/-- Numeric value of a list of decimal digits. -/
def digitsVal (l : List Char) : Nat :=
  l.foldl (fun a c => a * 10 + (c.toNat - 48)) 0

/-- Models Python `float(s)` on the strings the hook can meet: optional
surrounding whitespace, an optional sign, then digits with at most one
decimal point (at least one digit overall).  `none` models `ValueError`.
Exponent, `inf` and `nan` spellings are not modelled; they make `float`
succeed where this model fails, and no claim exercises them. -/
def pyFloat (s : String) : Option ℚ :=
  let cs := (s.toList.dropWhile (fun c => c = ' ')).reverse.dropWhile
    (fun c => c = ' ') |>.reverse
  let signed : Bool × List Char :=
    match cs with
    | '-' :: rest => (true, rest)
    | '+' :: rest => (false, rest)
    | _ => (false, cs)
  let ip := signed.2.takeWhile Char.isDigit
  let rest := signed.2.dropWhile Char.isDigit
  let mag : Option ℚ :=
    match rest with
    | [] => if ip.isEmpty then none else some (digitsVal ip : ℚ)
    | '.' :: rest2 =>
        let fp := rest2.takeWhile Char.isDigit
        if (rest2.dropWhile Char.isDigit).isEmpty then
          if ip.isEmpty && fp.isEmpty then none
          else some ((digitsVal ip : ℚ) + (digitsVal fp : ℚ) / 10 ^ fp.length)
        else none
    | _ => none
  mag.map (fun m => if signed.1 then -m else m)

/-- Embeds `DownloadProgressHook.__call__` (app.py lines 391-407) as a
function from the event dict to either a raised exception or the pair of
UI writes.  Indexing `d['downloaded_bytes']` on an absent key raises
`KeyError`; `d['downloaded_bytes'] / d['total_bytes']` with a zero total
raises `ZeroDivisionError`.  The byte ratio and percentage are computed in
`ℚ`; on the dyadic values the claims exercise Python float arithmetic is
exact, so the models agree there. -/
def hook_call (d : ProgressEvent) : Except PyError HookEffect :=
  if d.status = "downloading" then
    if d.total_bytes.isSome then
      match d.downloaded_bytes, d.total_bytes with
      | none, _ => .error (.keyError "downloaded_bytes")
      | some _, none => .error (.keyError "total_bytes")
      | some db, some tb =>
          if tb = 0 then .error .zeroDivisionError
          else
            let percent : ℚ := ((db : ℚ) / (tb : ℚ)) * 100
            .ok { progress := some (percent / 100)
                  text := some ("Downloaded: " ++ format_file_size db ++ " / "
                    ++ format_file_size tb ++ " (" ++ fmt1 percent ++ "%)") }
    else if d.percent_str.isSome then
      match d.percent_str with
      | none => .ok {}
      | some ps =>
          match pyFloat (stripPercent ps) with
          | some percent =>
              .ok { progress := some (percent / 100)
                    text := some ("Progress: " ++ fmt1 percent ++ "%") }
          | none => .ok { text := some "Downloading..." }
    else .ok {}
  else if d.status = "finished" then
    .ok { progress := some 1, text := some "Download completed!" }
  else .ok {}

/-- Models `os.path.join(output_path, name)` for an absolute directory
path with no trailing separator, as produced by `tempfile.mkdtemp`. -/
def path_join (output_path name : String) : String :=
  output_path ++ "/" ++ name

/-- Embeds `download_video` (app.py lines 409-441).  The two external
effects inside its `try` block are parameters: `engine` is the outcome of
`ydl.download([url])` and `listing` the outcome of
`os.listdir(output_path)`, each either a raised exception's message or a
normal return.  The `except` clause turns any exception `e` into
`(False, "Download failed: " + str(e))`. -/
def download_video (engine : Except String Unit)
    (listing : Except String (List String)) (output_path : String) :
    Bool × String :=
  match engine with
  | .error e => (false, "Download failed: " ++ e)
  | .ok () =>
      match listing with
      | .error e => (false, "Download failed: " ++ e)
      | .ok files =>
          match files with
          | [] => (false, "Download completed but file not found")
          | f :: _ => (true, path_join output_path f)

/-- Outcome of the `try` body of `download_format` (app.py lines
178-215): either some statement in the body raised an exception (caught
by the `except Exception` clause at line 217), or the body ran to the end,
in which case it observed `download_video`'s result pair and, on success,
whether `os.path.exists` found the reported file. -/
inductive TryBodyOutcome where
  | raised (msg : String)
  | completed (success : Bool) (result : String) (fileFound : Bool)
deriving DecidableEq, Repr

/-- The session and filesystem facts `download_format` manipulates:
`st.session_state.download_in_progress`, whether the temporary download
directory currently exists, and the messages the flow has shown. -/
structure FlowState where
  download_in_progress : Bool
  temp_dir_exists : Bool
  shown : List String
deriving DecidableEq, Repr

/-- Embeds `download_format` (app.py lines 170-227).  The flag is set,
the temporary directory is created, then the `try` body runs with outcome
`body`; the `except` clause shows the error, and the `finally` clause
removes the directory (`shutil.rmtree` inside its own `try`/`except
pass`; its success is assumed, as for any input here it is invoked on an
existing directory) and clears the flag.  Directory creation itself
(`tempfile.mkdtemp`, line 176, before the `try`) is assumed to succeed:
a download attempt begins once the directory exists. -/
def download_format (body : TryBodyOutcome) : FlowState :=
  let s0 : FlowState :=
    { download_in_progress := true, temp_dir_exists := true, shown := [] }
  let s1 : FlowState :=
    match body with
    | .completed true _ true =>
        { s0 with shown := s0.shown ++
            ["Download completed successfully!", "download button offered"] }
    | .completed true _ false =>
        { s0 with shown := s0.shown ++
            ["Download completed successfully!",
             "File downloaded but could not be located for download link"] }
    | .completed false result _ =>
        { s0 with shown := s0.shown ++ ["Download failed: " ++ result] }
    | .raised msg =>
        { s0 with shown := s0.shown ++
            ["An error occurred during download: " ++ msg] }
  let s2 : FlowState := { s1 with temp_dir_exists := false }
  { s2 with download_in_progress := false }

/-- All literal strings matched by one of the five regex patterns of
`validate_youtube_url` (app.py lines 252-258).  Each pattern is a
concatenation of finite literal alternations, so `re.match(pattern, url)`
succeeds exactly when one of the finitely many spelled-out literals
begins the string; `alternatives p` lists them. -/
def regexPieces : List (List String) → List String
  | [] => [""]
  | alts :: rest => (regexPieces rest).flatMap fun tail => alts.map (· ++ tail)

/-- The optional scheme group `(https?://)?`. -/
def schemeAlts : List String := ["", "http://", "https://"]

/-- The optional `(www\.)?` group. -/
def wwwAlts : List String := ["", "www."]

/-- The five patterns of `youtube_patterns`, each as its list of literal
alternatives. -/
def youtube_patterns : List (List String) :=
  [ regexPieces [schemeAlts, wwwAlts,
      ["youtube", "youtu", "youtube-nocookie"], [".com/", ".be/"]],
    regexPieces [schemeAlts, wwwAlts, ["youtu.be/"]],
    regexPieces [schemeAlts, wwwAlts, ["youtube.com/watch?v="]],
    regexPieces [schemeAlts, wwwAlts, ["youtube.com/embed/"]],
    regexPieces [schemeAlts, wwwAlts, ["youtube.com/v/"]] ]

/-- `lit` begins `url`: the first `length lit` characters of `url` spell
`lit`. -/
def strBegins (lit url : String) : Bool :=
  decide (url.toList.take lit.toList.length = lit.toList)

/-- `re.match(pattern, url)` for a pattern given by its literal
alternatives: some alternative begins the string. -/
def re_match (alternatives : List String) (url : String) : Bool :=
  alternatives.any fun lit => strBegins lit url

/-- Embeds `validate_youtube_url` (app.py lines 242-260):
`any(re.match(pattern, url) for pattern in youtube_patterns)`. -/
def validate_youtube_url (url : String) : Bool :=
  youtube_patterns.any fun p => re_match p url

/-- Projection of a hook outcome: the value written to the progress bar,
`none` if the handle was untouched or an exception was raised. -/
def hookProgress (r : Except PyError HookEffect) : Option ℚ :=
  match r with
  | .ok e => e.progress
  | .error _ => none

/-- Whether a hook invocation raised an exception. -/
def hookRaises (r : Except PyError HookEffect) : Bool :=
  match r with
  | .ok _ => false
  | .error _ => true

/-- A raw entry carrying both codecs, ext `mp4`: eligible as a video
record. -/
def videoEntry : RawFormat where
  format_id := some "22"
  ext := some "mp4"
  vcodec := some "avc1"
  acodec := some "mp4a"
  height := some 720
  abr := none
  fps := some 30
  filesize := some 1000
  format_note := some "720p"

/-- A raw audio-only entry (`vcodec == 'none'`), ext `mp3`: eligible as
an audio record. -/
def audioEntry : RawFormat where
  format_id := some "140"
  ext := some "mp3"
  vcodec := some "none"
  acodec := some "mp4a"
  height := none
  abr := some 128
  fps := none
  filesize := some 100
  format_note := none

/-- `videoEntry` with its extension replaced by `flv`. -/
def flvEntry : RawFormat := { videoEntry with ext := some "flv" }

/-- A `downloading` event that carries `total_bytes` but lacks
`downloaded_bytes`, with a perfectly parsable `_percent_str`. -/
def missingDownloadedEvent : ProgressEvent where
  status := "downloading"
  total_bytes := some 200
  downloaded_bytes := none
  percent_str := some "50%"

/-- A `downloading` event whose `total_bytes` is zero. -/
def zeroTotalEvent : ProgressEvent where
  status := "downloading"
  total_bytes := some 0
  downloaded_bytes := some 50
  percent_str := some "50%"

/-- A `downloading` event with no byte counts and an unparsable
`_percent_str`. -/
def badPercentEvent : ProgressEvent where
  status := "downloading"
  total_bytes := none
  downloaded_bytes := none
  percent_str := some "abc%"

theorem filter_filterMap_if {α β : Type} (p q : α → Bool) (g : α → β)
    (l : List α) :
    (l.filter p).filterMap (fun x => if q x then some (g x) else none) =
      (l.filter (fun x => p x && q x)).map g := by
  induction l with
  | nil => rfl
  | cons a t ih =>
      cases hp : p a <;> cases hq : q a <;>
        simp [List.filter_cons, hp, hq, ih]

/-- `get_available_formats` is the in-order video selection followed by
the in-order audio selection. -/
theorem get_available_formats_eq (fs : List RawFormat) :
    get_available_formats fs =
      (fs.filter videoPred).map mkVideo ++ (fs.filter audioPred).map mkAudio := by
  simp only [get_available_formats, filter_filterMap_if]
  rfl

/-- `videoPred` spelled out as a proposition. -/
theorem videoPred_iff (f : RawFormat) :
    videoPred f = true ↔
      f.vcodec ≠ some "none" ∧ f.acodec ≠ some "none" ∧
        extMem f ["mp4", "webm", "mkv"] = true := by
  simp [videoPred, and_assoc]

/-- `audioPred` spelled out as a proposition. -/
theorem audioPred_iff (f : RawFormat) :
    audioPred f = true ↔
      f.vcodec = some "none" ∧ f.acodec ≠ some "none" ∧
        extMem f ["mp3", "m4a", "webm"] = true := by
  simp [audioPred, and_assoc]

/-- An entry is never eligible both as a video and as an audio record:
the two comprehensions test `vcodec` against `'none'` in opposite ways. -/
theorem not_video_and_audio (f : RawFormat) :
    ¬(videoPred f = true ∧ audioPred f = true) := by
  rintro ⟨hv, ha⟩
  exact ((videoPred_iff f).mp hv).1 ((audioPred_iff f).mp ha).1

/-- A video record never equals an audio record: the `type` fields
differ. -/
theorem mkVideo_ne_mkAudio (f g : RawFormat) : mkVideo f ≠ mkAudio g := by
  intro h
  have ht := congrArg OrganizedFormat.type h
  simp [mkVideo, mkAudio] at ht

/-- `get_available_formats` on a single entry. -/
theorem get_available_formats_singleton (f : RawFormat) :
    get_available_formats [f] =
      (if videoPred f then [mkVideo f] else [])
        ++ (if audioPred f then [mkAudio f] else []) := by
  rw [get_available_formats_eq]
  cases hv : videoPred f <;> cases ha : audioPred f <;>
    simp [List.filter_cons, hv, ha]

/-- C7: `format_duration` maps `0` to `"Unknown"`, `65` to `"01:05"` and
`3661` to `"01:01:01"`. -/
theorem format_duration_spec :
    format_duration 0 = "Unknown"
  ∧ format_duration 65 = "01:05"
  ∧ format_duration 3661 = "01:01:01" := by
  refine ⟨by decide, by decide, by decide⟩

/-- C8: `format_file_size` maps `0` to `"Unknown"`, `1024` to `"1.0 KB"`
and `1536` to `"1.5 KB"`. -/
theorem format_file_size_spec :
    format_file_size 0 = "Unknown"
  ∧ format_file_size 1024 = "1.0 KB"
  ∧ format_file_size 1536 = "1.5 KB" := by
  refine ⟨by decide, ?_, ?_⟩ <;>
    · simp only [format_file_size, file_size_loop, fmt1, fmt1nn]
      norm_num
      decide

/-- C1 (counterexample): on the input `[audioEntry, videoEntry]` — an
eligible audio-only entry followed by an eligible video entry — the
organizer returns the video record first, so the two records do not
appear in the relative order of the corresponding input entries. -/
theorem get_available_formats_reorders :
    get_available_formats [audioEntry, videoEntry] =
      [mkVideo videoEntry, mkAudio audioEntry]
  ∧ (get_available_formats [audioEntry, videoEntry]).map OrganizedFormat.type
      = ["video", "audio"]
  ∧ ["video", "audio"] ≠ ["audio", "video"] := by
  refine ⟨rfl, rfl, by decide⟩

/-- C1 (amended): `get_available_formats` is a stable filter within each
type, but groups the output by type — every video record precedes every
audio record, and each group keeps the input's relative order; the
two-entry input with the video entry first therefore yields exactly two
records, typed video then audio, in input order. -/
theorem get_available_formats_grouped_order (fs : List RawFormat) :
    get_available_formats fs =
      (fs.filter videoPred).map mkVideo ++ (fs.filter audioPred).map mkAudio
  ∧ (get_available_formats [videoEntry, audioEntry]).map OrganizedFormat.type
      = ["video", "audio"]
  ∧ (get_available_formats [videoEntry, audioEntry]).length = 2 :=
  ⟨get_available_formats_eq fs, rfl, rfl⟩

/-- C2: a single raw entry produces a video record exactly when its
`vcodec` and `acodec` both differ from `'none'` and its extension is in
the video allow-list, an audio record exactly when `vcodec` is `'none'`,
`acodec` is not and its extension is in the audio allow-list, and nothing
otherwise; in particular an entry with ext `flv` produces nothing. -/
theorem get_available_formats_classification (f : RawFormat) :
    (get_available_formats [f] = [mkVideo f] ↔
      (f.vcodec ≠ some "none" ∧ f.acodec ≠ some "none" ∧
        extMem f ["mp4", "webm", "mkv"] = true))
  ∧ (get_available_formats [f] = [mkAudio f] ↔
      (f.vcodec = some "none" ∧ f.acodec ≠ some "none" ∧
        extMem f ["mp3", "m4a", "webm"] = true))
  ∧ (videoPred f = false → audioPred f = false →
      get_available_formats [f] = [])
  ∧ (f.ext = some "flv" → get_available_formats [f] = []) := by
  have hs := get_available_formats_singleton f
  have hflv : f.ext = some "flv" →
      videoPred f = false ∧ audioPred f = false := by
    intro he
    constructor
    · cases hv : videoPred f
      · rfl
      · have := ((videoPred_iff f).mp hv).2.2
        rw [extMem, he] at this
        exact absurd this (by decide)
    · cases ha : audioPred f
      · rfl
      · have := ((audioPred_iff f).mp ha).2.2
        rw [extMem, he] at this
        exact absurd this (by decide)
  cases hv : videoPred f <;> cases ha : audioPred f
  · rw [hv, ha] at hs; simp at hs
    refine ⟨?_, ?_, fun _ _ => hs, fun _ => hs⟩
    · refine iff_of_false (by simp [hs]) ?_
      intro hcond
      rw [(videoPred_iff f).mpr hcond] at hv; cases hv
    · refine iff_of_false (by simp [hs]) ?_
      intro hcond
      rw [(audioPred_iff f).mpr hcond] at ha; cases ha
  · rw [hv, ha] at hs; simp at hs
    refine ⟨?_, ?_, fun _ hfa => absurd hfa (by decide), fun he => ?_⟩
    · refine iff_of_false ?_ ?_
      · rw [hs]
        intro h
        injection h with h1 _
        exact mkVideo_ne_mkAudio f f h1.symm
      · intro hcond
        rw [(videoPred_iff f).mpr hcond] at hv; cases hv
    · exact iff_of_true hs ((audioPred_iff f).mp ha)
    · rw [(hflv he).2] at ha; cases ha
  · rw [hv, ha] at hs; simp at hs
    refine ⟨?_, ?_, fun hfv _ => absurd hfv (by decide), fun he => ?_⟩
    · exact iff_of_true hs ((videoPred_iff f).mp hv)
    · refine iff_of_false ?_ ?_
      · rw [hs]
        intro h
        injection h with h1 _
        exact mkVideo_ne_mkAudio f f h1
      · intro hcond
        rw [(audioPred_iff f).mpr hcond] at ha; cases ha
    · rw [(hflv he).1] at hv; cases hv
  · exact absurd ⟨hv, ha⟩ (not_video_and_audio f)

/-- C3 (counterexample): on a `downloading` event carrying `total_bytes`
but no `downloaded_bytes`, the hook raises `KeyError` even though the
event's `_percent_str` would have parsed cleanly — it does not fall back
to the pre-formatted percentage. -/
theorem hook_call_keyerror_counterexample :
    hook_call missingDownloadedEvent = .error (.keyError "downloaded_bytes")
  ∧ pyFloat (stripPercent "50%") = some 50 := by
  refine ⟨rfl, by decide⟩

/-- C3 (amended): on a `downloading` event the hook uses the exact byte
ratio whenever the `total_bytes` key is present (indexing
`downloaded_bytes` unconditionally); only when `total_bytes` is absent
does it fall back to `_percent_str` with the `'%'` trimmed and parsed as
a float, degrading to the static `"Downloading..."` text, without
raising, if the parse fails; an `error` status event is silently ignored
(neither handle is written). -/
theorem hook_call_downloading_spec (d : ProgressEvent) :
    (∀ db tb, d.status = "downloading" → d.downloaded_bytes = some db →
      d.total_bytes = some tb → tb ≠ 0 →
      hook_call d = .ok ⟨some ((db : ℚ) / (tb : ℚ)),
        some ("Downloaded: " ++ format_file_size db ++ " / "
          ++ format_file_size tb ++ " ("
          ++ fmt1 (((db : ℚ) / (tb : ℚ)) * 100) ++ "%)")⟩)
  ∧ (∀ ps p, d.status = "downloading" → d.total_bytes = none →
      d.percent_str = some ps → pyFloat (stripPercent ps) = some p →
      hook_call d = .ok ⟨some (p / 100),
        some ("Progress: " ++ fmt1 p ++ "%")⟩)
  ∧ (∀ ps, d.status = "downloading" → d.total_bytes = none →
      d.percent_str = some ps → pyFloat (stripPercent ps) = none →
      hook_call d = .ok { progress := none, text := some "Downloading..." })
  ∧ (d.status = "error" → hook_call d = .ok { progress := none, text := none }) := by
  refine ⟨?_, ?_, ?_, ?_⟩
  · intro db tb hst hdb htb htb0
    simp only [hook_call, hst, hdb, htb, Option.isSome_some, if_neg htb0]
    rw [mul_div_assoc, div_self (by norm_num : (100:ℚ) ≠ 0), mul_one]
    simp
  · intro ps p hst htb hps hpf
    simp [hook_call, hst, htb, hps, hpf]
  · intro ps hst htb hps hpf
    simp [hook_call, hst, htb, hps, hpf]
  · intro hst
    simp only [hook_call, hst]
    rw [if_neg (by decide : ¬("error" = "downloading")),
      if_neg (by decide : ¬("error" = "finished"))]

/-- C3 witness: the amended fallback clause at a concrete unparsable
event. -/
theorem hook_call_downloading_spec_witness :
    hook_call badPercentEvent =
      .ok { progress := none, text := some "Downloading..." } :=
  (hook_call_downloading_spec badPercentEvent).2.2.1 "abc%" rfl rfl rfl rfl

/-- C4: `download_video` never propagates an exception: an engine or
directory-listing exception yields `(False, "Download failed: " + e)`,
an empty listing yields the distinct file-not-found failure, and
otherwise it returns `(True, path)` joining the output directory with
the first listed file. -/
theorem download_video_spec (engine : Except String Unit)
    (listing : Except String (List String)) (output_path : String) :
    (∀ e, engine = .error e →
      download_video engine listing output_path =
        (false, "Download failed: " ++ e))
  ∧ (∀ e, engine = .ok () → listing = .error e →
      download_video engine listing output_path =
        (false, "Download failed: " ++ e))
  ∧ (engine = .ok () → listing = .ok [] →
      download_video engine listing output_path =
        (false, "Download completed but file not found"))
  ∧ (∀ f rest, engine = .ok () → listing = .ok (f :: rest) →
      download_video engine listing output_path =
        (true, path_join output_path f)) := by
  refine ⟨?_, ?_, ?_, ?_⟩ <;> intros <;> subst_vars <;> rfl

/-- C4 witness: the success clause at a concrete engine run. -/
theorem download_video_spec_witness :
    download_video (.ok ()) (.ok ["video.mp4"]) "/tmp/dl" =
      (true, "/tmp/dl/video.mp4") :=
  (download_video_spec (.ok ()) (.ok ["video.mp4"]) "/tmp/dl").2.2.2
    "video.mp4" [] rfl rfl

/-- C5: whatever the `try` body of `download_format` does — success with
or without a locatable file, a failure result from `download_video`, or
an exception raised anywhere in the body — after the flow completes the
temporary directory no longer exists and the in-progress flag is
cleared. -/
theorem download_format_cleanup (body : TryBodyOutcome) :
    (download_format body).download_in_progress = false
  ∧ (download_format body).temp_dir_exists = false := by
  cases body with
  | raised msg => exact ⟨rfl, rfl⟩
  | completed s r ff => cases s <;> cases ff <;> exact ⟨rfl, rfl⟩

/-- C6: `validate_youtube_url` returns `False` on any string matched by
none of the five patterns, and `True` on the two canonical forms. -/
theorem validate_youtube_url_spec (url : String)
    (h : ∀ p ∈ youtube_patterns, re_match p url = false) :
    validate_youtube_url url = false
  ∧ validate_youtube_url "https://www.youtube.com/watch?v=ID" = true
  ∧ validate_youtube_url "https://youtu.be/ID" = true := by
  refine ⟨?_, by decide, by decide⟩
  simp only [validate_youtube_url, List.any_eq_false]
  intro p hp
  simpa using h p hp

/-- C6 witness: the theorem at a string no pattern matches. -/
theorem validate_youtube_url_spec_witness :
    validate_youtube_url "ftp://example.com/video" = false
  ∧ validate_youtube_url "https://www.youtube.com/watch?v=ID" = true
  ∧ validate_youtube_url "https://youtu.be/ID" = true :=
  validate_youtube_url_spec "ftp://example.com/video" (by decide)

/-- C9: the event `{'status': 'downloading', 'downloaded_bytes': 50,
'total_bytes': 200}` drives the progress bar to exactly `1/4` (25%,
i.e. 0.25, a dyadic value on which Python float arithmetic is exact),
and `{'status': 'finished'}` drives it to exactly `1` (100%). -/
theorem hook_call_progress_values :
    hookProgress (hook_call ⟨"downloading", some 200, some 50, none⟩)
      = some (1/4)
  ∧ hookProgress (hook_call ⟨"finished", none, none, none⟩) = some 1 := by
  constructor
  · simp only [hook_call, hookProgress]
    norm_num
  · rfl

/-- C10: on a `downloading` event, mere presence of the `total_bytes` key
sends the hook down the byte-ratio branch with no guard: a missing
`downloaded_bytes` key raises `KeyError`, and a zero `total_bytes` raises
`ZeroDivisionError`; neither case reaches the `_percent_str` fallback. -/
theorem hook_call_unguarded (d : ProgressEvent)
    (hst : d.status = "downloading") (htb : d.total_bytes.isSome = true) :
    (d.downloaded_bytes = none →
      hook_call d = .error (.keyError "downloaded_bytes"))
  ∧ (∀ db, d.downloaded_bytes = some db → d.total_bytes = some 0 →
      hook_call d = .error .zeroDivisionError) := by
  constructor
  · intro hdb
    simp [hook_call, hst, htb, hdb]
  · intro db hdb htb0
    simp [hook_call, hst, hdb, htb0]

/-- C10 witness: the zero-total case at a concrete event. -/
theorem hook_call_unguarded_witness :
    hook_call zeroTotalEvent = .error .zeroDivisionError :=
  (hook_call_unguarded zeroTotalEvent rfl rfl).2 50 rfl rfl

/-- C2 witness: the flv-exclusion clause at a concrete entry carrying
both codecs. -/
theorem get_available_formats_classification_witness :
    get_available_formats [flvEntry] = [] :=
  (get_available_formats_classification flvEntry).2.2.2 rfl
